import Mathlib

/-!
Verification of the job-aggregation pipeline in src/job_alert_multi.py.

The script fetches job postings for a fixed list of search terms from a fixed
list of sites, filters them by a title allow-list (a single regex obtained by
joining the configured patterns with a vertical bar and applied with pandas
str.contains, na=False), tags a source, deduplicates on (title, company,
job_url), normalizes a posted timestamp, sorts newest first, renders an HTML
digest and sends it by mail.  The shallow embedding below models DataFrames as
lists of records plus a list of column names, the external scraping backend as
an oracle function, pandas to_datetime on a single value as an oracle
function, the wall clock as an integer parameter (seconds), and the logging
module as an explicit list of emitted events.  Python regular expressions are
modelled by a small regex language covering exactly the constructs used by the
configured patterns, with a derivative-based matcher; re.search semantics is
an explicit exists-a-matching-substring scan.
-/

set_option maxHeartbeats 4000000
set_option maxRecDepth 8000

namespace JobAlert

/-! ## Regular expressions (the sublanguage of Python re used by the config) -/

/-- Regex abstract syntax: empty language, empty string, a character class,
concatenation, alternation and Kleene star.  Character literals, the dot and
backslash-s are all character classes. -/
inductive Regex : Type where
  | emp : Regex
  | eps : Regex
  | cls : (Char → Bool) → Regex
  | cat : Regex → Regex → Regex
  | alt : Regex → Regex → Regex
  | star : Regex → Regex

/-- A literal character. -/
def chrR (c : Char) : Regex := .cls (fun d => d == c)

/-- The dot: any character except a newline (Python re default). -/
def anyR : Regex := .cls (fun d => !(d == '\n'))

/-- Backslash-s: ASCII whitespace as in Python re. -/
def wspR : Regex :=
  .cls (fun d => d == ' ' || d == '\t' || d == '\n' || d == '\r' || d == '\x0b' || d == '\x0c')

/-- The question-mark postfix operator: zero or one occurrence. -/
def optR (r : Regex) : Regex := .alt .eps r

/-- A literal string, as a chain of character literals. -/
def litR (s : String) : Regex := s.toList.foldr (fun c r => .cat (chrR c) r) .eps

/-- Does the regex accept the empty string. -/
def nullable : Regex → Bool
  | .emp => false
  | .eps => true
  | .cls _ => false
  | .cat a b => nullable a && nullable b
  | .alt a b => nullable a || nullable b
  | .star _ => true

/-- Concatenation with zero and unit simplification; used only inside the
derivative to keep intermediate terms small. -/
def catS : Regex → Regex → Regex
  | .emp, _ => .emp
  | .eps, b => b
  | a, b => .cat a b

/-- Brzozowski derivative of a regex with respect to one character. -/
def deriv : Regex → Char → Regex
  | .emp, _ => .emp
  | .eps, _ => .emp
  | .cls p, c => if p c then .eps else .emp
  | .cat a b, c => if nullable a then .alt (catS (deriv a c) b) (deriv b c) else catS (deriv a c) b
  | .alt a b, c => .alt (deriv a c) (deriv b c)
  | .star a, c => catS (deriv a c) (.star a)

/-- Full match of a regex against a character list, by repeated derivatives. -/
def rmatch (r : Regex) : List Char → Bool
  | [] => nullable r
  | c :: s => rmatch (deriv r c) s

/-- Python re.search semantics: some substring (here: some front segment of
some tail segment) matches the regex in full. -/
def rsearch (r : Regex) (s : List Char) : Bool :=
  s.tails.any (fun t => t.inits.any (fun p => rmatch r p))

/-- The string produced by joining patterns with a vertical bar parses as the
right-nested alternation of the individual patterns (none of the configured
patterns contains a top-level vertical bar or an anchor). -/
def joinAlt : List Regex → Regex
  | [] => .emp
  | [p] => p
  | p :: ps => .alt p (joinAlt ps)

/-! ## Configuration constants of the script -/

/-- SEARCH_TERMS from the config block. -/
def SEARCH_TERMS : List String :=
  ["Performance Test Engineer", "Performance Engineer", "Performance Architect",
   "Performance Test Lead", "Performance"]

/-- SITES from the config block. -/
def SITES : List String := ["linkedin", "indeed", "google"]

/-- REMOTE_ONLY from the config block. -/
def REMOTE_ONLY : Bool := false

/-- ALLOWED_TITLE_PATTERNS from the config block, each pattern literal
transcribed into the regex language. -/
def ALLOWED_TITLE_PATTERNS : List Regex :=
  [litR "performance test engineer",
   litR "performance engineer",
   .cat (litR "sr") (.cat (optR (chrR '.')) (.cat (.star wspR) (litR "performance test engineer"))),
   litR "senior performance test engineer",
   litR "performance architect",
   .cat (litR "lead")
     (.cat (.star wspR) (.cat (optR (chrR '-')) (.cat (.star wspR) (litR "performance test engineer")))),
   litR "lead performance test engineer",
   litR "performance test lead",
   .cat (litR "performance") (.cat (.star anyR) (litR "engineer")),
   .cat (.star anyR) (.cat (litR "performance") (.star anyR))]

/-- The compiled form of the joined pattern string built in gather_jobs. -/
def titleRegex : Regex := joinAlt ALLOWED_TITLE_PATTERNS

/-! ## Rows and frames -/

/-- One DataFrame row, with the columns the script reads or writes.  A missing
value (NaN in pandas) is none.  posted_dt is the normalized timestamp in
seconds, posted the derived age label, source the derived source tag, site the
column assigned in the fetch loop. -/
structure Row : Type where
  title : Option String
  company : Option String
  job_url : Option String
  site : Option String
  is_remote : Option Bool
  date_posted : Option String
  posted_date : Option String
  posted_at : Option String
  source : Option String
  posted_dt : Option Int
  posted : Option String
deriving DecidableEq, Repr

/-- A row carrying only backend-supplied fields, as a fetch returns it. -/
def mkRow (title company job_url : Option String) (is_remote : Option Bool)
    (date_posted posted_date posted_at : Option String) : Row :=
  ⟨title, company, job_url, none, is_remote, date_posted, posted_date, posted_at,
   none, none, none⟩

/-- A DataFrame: its column names and its rows. -/
structure Frame : Type where
  cols : List String
  rows : List Row
deriving DecidableEq, Repr

/-! ## The helper functions of the script -/

/-- compute_posted_ago: pd.isna is the none case; hours is the floor of the
delta in seconds divided by 3600 (Python float floor-division then int). -/
def compute_posted_ago (now : Int) (dt : Option Int) : String :=
  match dt with
  | none => "Unknown"
  | some d =>
    let hours : Int := (now - d).fdiv 3600
    if hours < 24 then toString hours ++ " hours ago"
    else toString (hours.fdiv 24) ++ " days ago"

/-- Python str.lower, written with structural recursion over the character
list so the kernel can evaluate it. -/
def strLower (s : String) : String := String.mk (s.data.map Char.toLower)

/-- Python str.upper, written like strLower. -/
def strUpper (s : String) : String := String.mk (s.data.map Char.toUpper)

/-- Python str applied to an optional value: None prints as the word None. -/
def pyStr : Option String → String
  | none => "None"
  | some s => s

/-- Is the needle a front segment of the haystack. -/
def hasFront : List Char → List Char → Bool
  | [], _ => true
  | _ :: _, [] => false
  | a :: as, b :: bs => a == b && hasFront as bs

/-- Python substring containment test, needle in haystack. -/
def strHasSub (needle hay : String) : Bool :=
  hay.toList.tails.any (hasFront needle.toList)

/-- tag_source from gather_jobs. -/
def tag_source (url : Option String) (site : Option String) : String :=
  if strHasSub "workdayjobs" (strLower (pyStr url)) then "Workday"
  else if site == some "indeed" then "Indeed"
  else if site == some "linkedin" then "LinkedIn"
  else "Google Jobs"

/-! ## Logging and fetch oracle -/

/-- One record emitted through the logging module. -/
inductive LogEvent : Type where
  | info : String → LogEvent
  | warning : String → LogEvent
  | error : String → LogEvent
  | critical : String → LogEvent
deriving DecidableEq, Repr

/-- Outcome of one scrape_jobs call of the external jobspy backend: a frame, a
None result, or a raised exception with its message. -/
inductive FetchResult : Type where
  | ok : Frame → FetchResult
  | noneResult : FetchResult
  | raised : String → FetchResult
deriving DecidableEq, Repr

/-- True when the fetch raised. -/
def isRaised : FetchResult → Bool
  | .raised _ => true
  | _ => false

/-- safe_scrape: logs the attempt, catches every exception (returning an empty
frame with an error record), turns a None or empty result into an empty frame
with a warning, and passes a non-empty frame through. -/
def safe_scrape (site term : String) (res : FetchResult) : List LogEvent × Frame :=
  let head := LogEvent.info ("Scraping " ++ site ++ " for " ++ term)
  match res with
  | .raised e =>
      ([head, .error (strUpper site ++ " failed for " ++ term ++ ": " ++ e)], ⟨[], []⟩)
  | .noneResult =>
      ([head, .warning ("No results from " ++ site ++ " for " ++ term)], ⟨[], []⟩)
  | .ok f =>
      if f.rows.isEmpty then
        ([head, .warning ("No results from " ++ site ++ " for " ++ term)], ⟨[], []⟩)
      else ([head], f)

/-! ## The gather_jobs pipeline -/

/-- The attempted (term, site) pairs, in the declared loop order: terms outer,
sites inner. -/
def pairList : List (String × String) :=
  SEARCH_TERMS.flatMap (fun t => SITES.map (fun s => (t, s)))

/-- Assignment of the site column before a frame is appended to all_results. -/
def addSiteCol (s : String) (f : Frame) : Frame :=
  ⟨if f.cols.contains "site" then f.cols else f.cols ++ ["site"],
   f.rows.map (fun r => { r with site := some s })⟩

/-- One iteration of the fetch loop: its log records, and the frame it appends
to all_results when the scrape produced rows. -/
def scrapeStep (fetch : String → String → FetchResult) (p : String × String) :
    List LogEvent × Option Frame :=
  let (lg, f) := safe_scrape p.2 p.1 (fetch p.1 p.2)
  (lg, if f.rows.isEmpty then none else some (addSiteCol p.2 f))

/-- All log records of the fetch loop, in loop order. -/
def gatherLogs (fetch : String → String → FetchResult) : List LogEvent :=
  (pairList.map (fun p => (scrapeStep fetch p).1)).flatten

/-- The all_results list after the fetch loop, in loop order. -/
def gatherParts (fetch : String → String → FetchResult) : List Frame :=
  pairList.filterMap (fun p => (scrapeStep fetch p).2)

/-- Column union of pd.concat: columns in order of first appearance. -/
def colsUnion (ls : List (List String)) : List String :=
  ls.foldl (fun acc cs => acc ++ cs.filter (fun c => !(acc.contains c))) []

/-- The title filter predicate on one cell: str.lower followed by str.contains
with the compiled joined regex; na=False sends a missing title to false. -/
def titleAccept (reg : Regex) (t : Option String) : Bool :=
  match t with
  | none => false
  | some s => rsearch reg (strLower s).toList

/-- The title filter stage of gather_jobs, at the configured patterns. -/
def titleFilterStep (rows : List Row) : List Row :=
  rows.filter (fun r => titleAccept titleRegex r.title)

/-- The dedup identity key: the title, company and job_url cells.  pandas
drop_duplicates compares cells exactly and treats two missing values as
equal, which the Option equality reproduces. -/
def dedupKey (r : Row) : Option String × Option String × Option String :=
  (r.title, r.company, r.job_url)

/-- Worker of the dedup stage: drop a row whose key was already seen. -/
def dedupeGo (seen : List (Option String × Option String × Option String)) :
    List Row → List Row
  | [] => []
  | r :: rs =>
      if dedupKey r ∈ seen then dedupeGo seen rs
      else r :: dedupeGo (dedupKey r :: seen) rs

/-- drop_duplicates on subset (title, company, job_url), keep equal to first. -/
def dedupe (rows : List Row) : List Row := dedupeGo [] rows

/-- Field access used by the date-normalization loop. -/
def getDateField (r : Row) : String → Option String
  | "date_posted" => r.date_posted
  | "posted_date" => r.posted_date
  | "posted_at" => r.posted_at
  | _ => none

/-- The ordered list of candidate date columns from gather_jobs. -/
def DATE_COLS : List String := ["date_posted", "posted_date", "posted_at"]

/-- The date-normalization stage: posted_dt starts as NaT; the loop overwrites
it from the first candidate column present among the frame columns (one
column chosen for the whole frame, then break), coercing each cell with the
external parser; a missing or unparseable cell stays NaT. -/
def normalizeDateStep (cols : List String) (parseD : String → Option Int)
    (rows : List Row) : List Row :=
  match DATE_COLS.find? (fun c => cols.contains c) with
  | none => rows.map (fun r => { r with posted_dt := none })
  | some c => rows.map (fun r => { r with posted_dt := (getDateField r c).bind parseD })

/-- Key comparison of the sort stage: newest first, missing timestamps after
every present timestamp (sort_values ascending=False, na_position last). -/
def rowBefore (a b : Row) : Bool :=
  match a.posted_dt, b.posted_dt with
  | some x, some y => decide (y ≤ x)
  | some _, none => true
  | none, some _ => false
  | none, none => true

/-- Ordered insertion for the sort stage. -/
def insertRow (r : Row) : List Row → List Row
  | [] => [r]
  | x :: xs => if rowBefore r x then r :: x :: xs else x :: insertRow r xs

/-- The sort stage.  pandas sort_values with the default quicksort fixes no
order among rows with equal keys; this insertion sort is one admissible
determinization (it realizes the required key order), so facts about the
relative order of equal-key rows are NOT facts of the script. -/
def sortStep (rows : List Row) : List Row := rows.foldr insertRow []

/-- Errors that can escape gather_jobs in the embedding: the re.error raised
when compiling the joined title pattern fails. -/
inductive PyError : Type where
  | reError : PyError
  | keyError : PyError
deriving DecidableEq, Repr

/-- The remote filter of gather_jobs; REMOTE_ONLY is false in the config, so
the branch is never taken, but the guard is transcribed as written. -/
def remoteFilter (cols : List String) (rows : List Row) : List Row :=
  if REMOTE_ONLY && cols.contains "is_remote" then
    rows.filter (fun r => r.is_remote == some true)
  else rows

/-- Column assignment: pandas appends a new column name at the end. -/
def addCol (cols : List String) (c : String) : List String :=
  if cols.contains c then cols else cols ++ [c]

/-- The columns added by the stages after the title filter. -/
def finishCols (cols : List String) : List String :=
  addCol (addCol (addCol cols "source") "posted_dt") "posted"

/-- The row pipeline of gather_jobs after the remote filter, in source order:
title filter, source tagging, dedup, date normalization, sort, age label. -/
def finishRows (parseD : String → Option Int) (now : Int) (reg : Regex)
    (cols : List String) (rows : List Row) : List Row :=
  let rows := rows.filter (fun r => titleAccept reg r.title)
  let rows := rows.map (fun r => { r with source := some (tag_source r.job_url r.site) })
  let rows := dedupe rows
  let rows := normalizeDateStep (addCol (addCol cols "source") "posted_dt") parseD rows
  let rows := sortStep rows
  rows.map (fun r => { r with posted := some (compute_posted_ago now r.posted_dt) })

/-- gather_jobs.  fetch is the external backend oracle, parseD the external
to_datetime oracle on one cell, now the clock, compiledTitle the result of
the external re compiler on the joined pattern string: some compiled regex,
or none when a configured pattern is malformed (re.error at the str.contains
call).  For the shipped pattern list the compiled form is titleRegex.
Returns the emitted log and either the final frame or the escaping error. -/
def gather_jobs (fetch : String → String → FetchResult) (parseD : String → Option Int)
    (now : Int) (compiledTitle : Option Regex) : List LogEvent × Except PyError Frame :=
  let lg := gatherLogs fetch
  let parts := gatherParts fetch
  if parts.isEmpty then
    (lg ++ [.error "All sources failed. Returning empty DataFrame."], .ok ⟨[], []⟩)
  else
    let cols := (colsUnion (parts.map Frame.cols)).map strLower
    let rows := (parts.map Frame.rows).flatten
    let rows := remoteFilter cols rows
    match compiledTitle with
    | none => (lg, .error .reError)
    | some reg => (lg, .ok ⟨finishCols cols, finishRows parseD now reg cols rows⟩)

/-! ## Report rendering and the top-level run -/

/-- The empty-result page of build_html_email (whitespace compressed). -/
def NO_JOBS_HTML : String :=
  "<html><body><h3>No matching Performance Engineering jobs found in last 48 hours.</h3></body></html>"

/-- The minimal report dispatched by the top-level except handler. -/
def ERROR_HTML : String := "<h3>Job ran but encountered errors. Check logs.</h3>"

/-- build_table of build_html_email (markup compressed, same cells). -/
def build_table (title : String) (data : List Row) : String :=
  if data.isEmpty then "<h3>" ++ title ++ "</h3><p>No jobs found.</p>"
  else
    let body := data.foldl (fun acc r =>
      acc ++ "<tr><td>" ++ (r.posted.getD "") ++ "</td><td>" ++ (r.source.getD "")
        ++ "</td><td>" ++ (r.company.getD "") ++ "</td><td>" ++ (r.title.getD "")
        ++ "</td><td><a href=" ++ pyStr r.job_url ++ ">View Job</a></td></tr>") ""
    "<h3>" ++ title ++ " (" ++ toString data.length ++ ")</h3><table>" ++ body ++ "</table>"

/-- build_html_email: the no-jobs page on an empty frame.  On a non-empty
frame the source evaluates df indexed by df.get of is_remote compared to
True: when the gathered table has no is_remote column, DataFrame.get yields
the scalar None, the comparison with True is the scalar False, and indexing
the frame with False raises KeyError; with the column present, the remote
and onsite buckets (is_remote equal true against not equal true) and the
total are rendered. -/
def build_html_email (f : Frame) : Except PyError String :=
  if f.rows.isEmpty then .ok NO_JOBS_HTML
  else if f.cols.contains "is_remote" then
    let remote := f.rows.filter (fun r => r.is_remote == some true)
    let onsite := f.rows.filter (fun r => !(r.is_remote == some true))
    .ok ("<html><body><h2>Performance Engineering Job Alerts (Last 48 Hours)</h2>"
      ++ build_table "Remote Roles" remote
      ++ build_table "Onsite / Hybrid Roles" onsite
      ++ "<p><b>Total jobs:</b> " ++ toString f.rows.length ++ "</p></body></html>")
  else .error .keyError

/-- Observable outcome of one run of main. -/
inductive MainOutcome : Type where
  | emailSent : String → Nat → MainOutcome
  | errorEmailSent : MainOutcome
  | crashed : MainOutcome
deriving DecidableEq, Repr

/-- What one run of main did: the log, every dispatch attempt in order (the
html body and the count passed to send_email), and the outcome. -/
structure RunResult : Type where
  log : List LogEvent
  dispatches : List (String × Nat)
  outcome : MainOutcome
deriving DecidableEq, Repr

/-- main.  sendOk is the external mail-transport oracle per dispatch attempt
of the run (attempt numbering starts at zero).  The try block runs
gather_jobs, then build_html_email, then the first send_email; an exception
anywhere in the block, including a KeyError out of build_html_email before
any send, falls into the except handler, which logs and attempts send_email
once with the minimal report; an exception out of that last call propagates
(the process dies). -/
def mainRun (fetch : String → String → FetchResult) (parseD : String → Option Int)
    (now : Int) (compiledTitle : Option Regex) (sendOk : Nat → Bool) : RunResult :=
  match gather_jobs fetch parseD now compiledTitle with
  | (lg, .ok frame) =>
    match build_html_email frame with
    | .error _ =>
      if sendOk 0 then
        { log := lg ++ [.critical "Fatal error avoided"],
          dispatches := [(ERROR_HTML, 0)], outcome := .errorEmailSent }
      else
        { log := lg ++ [.critical "Fatal error avoided"],
          dispatches := [(ERROR_HTML, 0)], outcome := .crashed }
    | .ok html =>
      let n := frame.rows.length
      if sendOk 0 then
        { log := lg ++ [.info ("Email sent with " ++ toString n ++ " jobs.")],
          dispatches := [(html, n)], outcome := .emailSent html n }
      else if sendOk 1 then
        { log := lg ++ [.critical "Fatal error avoided"],
          dispatches := [(html, n), (ERROR_HTML, 0)], outcome := .errorEmailSent }
      else
        { log := lg ++ [.critical "Fatal error avoided"],
          dispatches := [(html, n), (ERROR_HTML, 0)], outcome := .crashed }
  | (lg, .error _) =>
    if sendOk 0 then
      { log := lg ++ [.critical "Fatal error avoided"],
        dispatches := [(ERROR_HTML, 0)], outcome := .errorEmailSent }
    else
      { log := lg ++ [.critical "Fatal error avoided"],
        dispatches := [(ERROR_HTML, 0)], outcome := .crashed }

/-- Transcription of the dedup claim: keep the first occurrence of each
distinct key, drop every later row with an equal key, recurse on the rest. -/
def specDedupe : List Row → List Row
  | [] => []
  | r :: rs => r :: specDedupe (rs.filter (fun x => decide (dedupKey x ≠ dedupKey r)))
termination_by l => l.length
decreasing_by
  simpa using Nat.lt_succ_of_le (List.length_filter_le _ _)

/-- Transcription of the timestamp claim: per posting, parse the first
populated field among date_posted, posted_date, posted_at; none when no field
is populated or the parse fails. -/
def specPostedAt (parseD : String → Option Int) (r : Row) : Option Int :=
  match (DATE_COLS.filterMap (getDateField r)).head? with
  | none => none
  | some s => parseD s

/-! ## Predicates on log events -/

/-- An info record; within gather_jobs exactly the per-pair scrape records. -/
def isInfoEv : LogEvent → Bool
  | .info _ => true
  | _ => false

/-- An error record; within gather_jobs the per-pair failure records and the
all-sources-failed record. -/
def isErrorEv : LogEvent → Bool
  | .error _ => true
  | _ => false

/-- Did gather_jobs raise (propagate an exception to main). -/
def raisedOf (x : List LogEvent × Except PyError Frame) : Bool :=
  match x.2 with
  | .ok _ => false
  | .error _ => true

/-- The frame returned by gather_jobs, the empty frame when it raised. -/
def frameOf (x : List LogEvent × Except PyError Frame) : Frame :=
  match x.2 with
  | .ok f => f
  | .error _ => ⟨[], []⟩

/-! ## Concrete inputs used by counterexamples and witnesses -/

/-- A backend on which every (term, site) scrape raises. -/
def frAll : String → String → FetchResult := fun _ _ => .raised "boom"

/-- A to_datetime oracle on which nothing parses. -/
def parse0 : String → Option Int := fun _ => none

/-- A backend row with a matching title. -/
def rowP : Row := mkRow (some "performance") (some "Acme") (some "https://a/1") none none none none

/-- A backend row with a missing title cell. -/
def rowN : Row := mkRow none (some "NoTitle") (some "https://a/2") none none none none

/-- A backend on which exactly one (term, site) pair succeeds, returning the
two rows above, and every other pair raises. -/
def fetchOne : String → String → FetchResult := fun t s =>
  if t == "Performance" && s == "google" then
    .ok ⟨["title", "company", "job_url", "date_posted"], [rowP, rowN]⟩
  else .raised "boom"

/-- The single row the whole pipeline produces from fetchOne under parse0,
clock zero and the shipped title regex. -/
def rowPFinal : Row :=
  ⟨some "performance", some "Acme", some "https://a/1", some "google", none, none, none, none,
   some "Google Jobs", none, some "Unknown"⟩

/-- The dedup scenario posting as fetched from a first source. -/
def postA : Row :=
  ⟨some "Performance Engineer", some "Acme", some "https://a/1", some "siteA", none, none, none,
   none, none, none, none⟩

/-- The identical (title, company, url) triple as fetched from a second
source: only the site differs. -/
def postB : Row :=
  ⟨some "Performance Engineer", some "Acme", some "https://a/1", some "siteB", none, none, none,
   none, none, none, none⟩

/-- Columns of a gathered table in which date_posted exists. -/
def cols9 : List String := ["title", "company", "job_url", "date_posted", "posted_date", "site"]

/-- A to_datetime oracle for the date counterexample. -/
def parseD9 : String → Option Int := fun s =>
  if s == "2025-01-01" then some 50 else if s == "2025-01-02" then some 100 else none

/-- A row carrying a parseable date_posted cell. -/
def row91 : Row := mkRow (some "a") none none none (some "2025-01-01") none none

/-- A row with an empty date_posted cell but a populated, parseable
posted_date cell. -/
def row92 : Row := mkRow (some "b") none none none none (some "2025-01-02") none

/-! ## Helper lemmas: the regex matcher -/

theorem rmatch_emp (s : List Char) : rmatch .emp s = false := by
  induction s with
  | nil => rfl
  | cons c s ih => exact ih

theorem rmatch_alt (s : List Char) : ∀ a b : Regex,
    rmatch (.alt a b) s = (rmatch a s || rmatch b s) := by
  induction s with
  | nil => intro a b; rfl
  | cons c s ih => intro a b; exact ih (deriv a c) (deriv b c)

theorem any_or_split {α : Type} (l : List α) (p q : α → Bool) :
    (l.any fun x => p x || q x) = (l.any p || l.any q) := by
  induction l with
  | nil => rfl
  | cons a l ih =>
    simp only [List.any_cons, ih]
    cases p a <;> cases q a <;> simp

theorem rsearch_alt (a b : Regex) (s : List Char) :
    rsearch (.alt a b) s = (rsearch a s || rsearch b s) := by
  unfold rsearch
  have h1 : (fun t : List Char => t.inits.any fun p => rmatch (.alt a b) p)
      = fun t => (t.inits.any fun p => rmatch a p) || (t.inits.any fun p => rmatch b p) := by
    funext t
    rw [show (fun p => rmatch (.alt a b) p) = fun p => rmatch a p || rmatch b p by
      funext p; exact rmatch_alt p a b]
    exact any_or_split _ _ _
  rw [h1]
  exact any_or_split _ _ _

theorem rsearch_emp (s : List Char) : rsearch .emp s = false := by
  unfold rsearch
  simp [rmatch_emp]

theorem rsearch_joinAlt (ps : List Regex) (s : List Char) :
    rsearch (joinAlt ps) s = true ↔ ∃ p ∈ ps, rsearch p s = true := by
  induction ps with
  | nil => simp [joinAlt, rsearch_emp]
  | cons p ps ih =>
    cases ps with
    | nil => simp [joinAlt]
    | cons q qs =>
      rw [show joinAlt (p :: q :: qs) = .alt p (joinAlt (q :: qs)) from rfl, rsearch_alt]
      simp only [Bool.or_eq_true, ih, List.mem_cons]
      constructor
      · rintro (h | ⟨x, hx, hs⟩)
        · exact ⟨p, Or.inl rfl, h⟩
        · exact ⟨x, Or.inr hx, hs⟩
      · rintro ⟨x, (rfl | hx), hs⟩
        · exact Or.inl hs
        · exact Or.inr ⟨x, hx, hs⟩

/-! ## Helper lemmas: dedup -/

theorem dedupeGo_subset {r : Row} : ∀ (l : List Row) (seen), r ∈ dedupeGo seen l → r ∈ l := by
  intro l
  induction l with
  | nil => intro seen h; exact absurd h (by simp [dedupeGo])
  | cons x xs ih =>
    intro seen h
    by_cases hx : dedupKey x ∈ seen
    · simp only [dedupeGo, if_pos hx] at h
      exact List.mem_cons_of_mem x (ih seen h)
    · simp only [dedupeGo, if_neg hx, List.mem_cons] at h
      rcases h with h | h
      · exact h ▸ List.mem_cons_self x xs
      · exact List.mem_cons_of_mem x (ih _ h)

theorem dedupeGo_idem : ∀ (l : List Row) (seen), dedupeGo seen (dedupeGo seen l) = dedupeGo seen l := by
  intro l
  induction l with
  | nil => intro seen; rfl
  | cons r rs ih =>
    intro seen
    by_cases h : dedupKey r ∈ seen
    · simp only [dedupeGo, if_pos h]
      exact ih seen
    · simp only [dedupeGo, if_neg h]
      rw [ih (dedupKey r :: seen)]

theorem dedupeGo_spec : ∀ (l : List Row) (seen),
    dedupeGo seen l = specDedupe (l.filter fun x => decide (dedupKey x ∉ seen)) := by
  intro l
  induction l with
  | nil => intro seen; simp [dedupeGo, specDedupe]
  | cons r rs ih =>
    intro seen
    by_cases h : dedupKey r ∈ seen
    · rw [show dedupeGo seen (r :: rs) = dedupeGo seen rs from by simp [dedupeGo, if_pos h]]
      rw [show (r :: rs).filter (fun x => decide (dedupKey x ∉ seen))
            = rs.filter (fun x => decide (dedupKey x ∉ seen)) from by
        simp [List.filter_cons, h]]
      exact ih seen
    · rw [show dedupeGo seen (r :: rs) = r :: dedupeGo (dedupKey r :: seen) rs from by
        simp [dedupeGo, if_neg h]]
      rw [show (r :: rs).filter (fun x => decide (dedupKey x ∉ seen))
            = r :: rs.filter (fun x => decide (dedupKey x ∉ seen)) from by
        simp [List.filter_cons, h]]
      rw [specDedupe, ih (dedupKey r :: seen)]
      congr 1
      rw [List.filter_filter]
      congr 1
      apply List.filter_congr
      intro a _
      simp only [List.mem_cons, not_or, decide_not]
      cases hak : decide (dedupKey a = dedupKey r) <;>
        cases has : decide (dedupKey a ∈ seen) <;>
          simp_all

/-! ## Helper lemmas: the sort stage -/

theorem mem_insertRow {a r : Row} : ∀ l : List Row, a ∈ insertRow r l ↔ a = r ∨ a ∈ l := by
  intro l
  induction l with
  | nil => simp [insertRow]
  | cons x xs ih =>
    simp only [insertRow]
    by_cases h : rowBefore r x = true
    · simp [h, List.mem_cons]
    · simp only [if_neg h, List.mem_cons, ih]
      tauto

theorem mem_sortStep {a : Row} : ∀ l : List Row, a ∈ sortStep l ↔ a ∈ l := by
  intro l
  induction l with
  | nil => simp [sortStep]
  | cons x xs ih =>
    simp only [sortStep, List.foldr_cons]
    rw [show xs.foldr insertRow [] = sortStep xs from rfl] at *
    rw [mem_insertRow]
    simp [ih]

/-! ## Helper lemmas: the fetch phase -/

theorem scrape_one_info (fetch : String → String → FetchResult) (p : String × String) :
    ((scrapeStep fetch p).1).countP isInfoEv = 1 := by
  unfold scrapeStep safe_scrape
  rcases fetch p.1 p.2 with f | _ | e
  · by_cases h : f.rows.isEmpty <;>
      simp [h, List.countP_cons, List.countP_nil, isInfoEv]
  · simp [List.countP_cons, List.countP_nil, isInfoEv]
  · simp [List.countP_cons, List.countP_nil, isInfoEv]

theorem flatten_info_count (fetch : String → String → FetchResult) :
    ∀ ps : List (String × String),
      ((ps.map fun p => (scrapeStep fetch p).1).flatten).countP isInfoEv = ps.length := by
  intro ps
  induction ps with
  | nil => rfl
  | cons p ps ih =>
    simp only [List.map_cons, List.flatten_cons, List.countP_append, ih, scrape_one_info,
      List.length_cons]
    omega

theorem gatherLogs_info_count (fetch : String → String → FetchResult) :
    (gatherLogs fetch).countP isInfoEv = 15 := by
  unfold gatherLogs
  rw [flatten_info_count]
  rfl

theorem gatherParts_nil (fetch : String → String → FetchResult)
    (h : ∀ p ∈ pairList, isRaised (fetch p.1 p.2) = true) : gatherParts fetch = [] := by
  unfold gatherParts
  rw [List.filterMap_eq_nil_iff]
  intro p hp
  have hr := h p hp
  unfold scrapeStep safe_scrape
  rcases hf : fetch p.1 p.2 with f | _ | e
  · rw [hf] at hr; exact absurd hr (by simp [isRaised])
  · rw [hf] at hr; exact absurd hr (by simp [isRaised])
  · simp

theorem gather_log_infos (fetch : String → String → FetchResult) (parseD : String → Option Int)
    (now : Int) (ct : Option Regex) :
    (gather_jobs fetch parseD now ct).1.countP isInfoEv = 15 := by
  by_cases hE : (gatherParts fetch).isEmpty
  · simp [gather_jobs, hE, List.countP_append, gatherLogs_info_count, isInfoEv,
      List.countP_cons, List.countP_nil]
  · cases ct with
    | none => simp [gather_jobs, hE, gatherLogs_info_count]
    | some reg => simp [gather_jobs, hE, gatherLogs_info_count]

theorem gather_ok_rows (fetch : String → String → FetchResult) (parseD : String → Option Int)
    (now : Int) (reg : Regex) (hE : (gatherParts fetch).isEmpty = false) :
    (frameOf (gather_jobs fetch parseD now (some reg))).rows
      = finishRows parseD now reg
          ((colsUnion ((gatherParts fetch).map Frame.cols)).map strLower)
          (remoteFilter ((colsUnion ((gatherParts fetch).map Frame.cols)).map strLower)
            (((gatherParts fetch).map Frame.rows).flatten)) := by
  simp [gather_jobs, hE, frameOf]

theorem mem_finishRows_title (parseD : String → Option Int) (now : Int) (reg : Regex)
    (cols : List String) (rows : List Row) (r : Row)
    (h : r ∈ finishRows parseD now reg cols rows) : r.title ≠ none := by
  simp only [finishRows] at h
  rcases List.mem_map.1 h with ⟨r5, h5, rfl⟩
  rw [mem_sortStep] at h5
  unfold normalizeDateStep at h5
  rcases hf : DATE_COLS.find?
      (fun c => (addCol (addCol cols "source") "posted_dt").contains c) with _ | c <;>
    rw [hf] at h5 <;>
    [skip; skip] <;>
    · rcases List.mem_map.1 h5 with ⟨r4, h4, rfl⟩
      have h3 := dedupeGo_subset _ [] h4
      rcases List.mem_map.1 h3 with ⟨r2, h2, rfl⟩
      rcases List.mem_filter.1 h2 with ⟨_, hacc⟩
      cases ht : r2.title with
      | none => rw [ht] at hacc; exact absurd hacc (by simp [titleAccept])
      | some t => simp [ht]

/-! ## Claim C5: dedup keeps the first occurrence of each identity key -/

/-- C5: for every posting list, the dedup stage equals the stage described by
the spec sentence (keep the first occurrence, in incoming order, of each
distinct (title, company, job_url) key, compared exactly, dropping every
later row with an equal key); and the two-source scenario with an identical
triple collapses to the first-seen posting. -/
theorem C5_dedupe_first_occurrence :
    (∀ rows : List Row, dedupe rows = specDedupe rows) ∧ dedupe [postA, postB] = [postA] := by
  constructor
  · intro rows
    rw [dedupe, dedupeGo_spec]
    congr 1
    rw [show (fun x : Row => decide (dedupKey x ∉ ([] : List _))) = fun _ => true from
      funext fun x => by simp]
    exact List.filter_true rows
  · decide

/-! ## Claim C6: dedup is idempotent -/

/-- C6: for every posting list, applying the dedup stage twice equals
applying it once. -/
theorem C6_dedupe_idempotent (rows : List Row) : dedupe (dedupe rows) = dedupe rows :=
  dedupeGo_idem rows []

/-! ## Claim C7: the title filter is an OR over the configured patterns -/

/-- C7: a row survives the title-filter stage exactly when it was in the
input and its lowercased title is found (re.search, substring semantics) by
at least one configured allow-list pattern; the stage applies the single
joined regex, and the joined regex finds a string exactly when some
individual pattern does. -/
theorem C7_title_filter_any_pattern (rows : List Row) (r : Row) :
    r ∈ titleFilterStep rows ↔
      (r ∈ rows ∧ ∃ t, r.title = some t ∧
        ∃ p ∈ ALLOWED_TITLE_PATTERNS, rsearch p (strLower t).toList = true) := by
  constructor
  · intro h
    rcases List.mem_filter.1 h with ⟨hm, hacc⟩
    refine ⟨hm, ?_⟩
    cases ht : r.title with
    | none => rw [ht] at hacc; exact absurd hacc (by simp [titleAccept])
    | some s =>
      rw [ht] at hacc
      exact ⟨s, rfl, (rsearch_joinAlt ALLOWED_TITLE_PATTERNS (strLower s).toList).1 hacc⟩
  · rintro ⟨hm, t, ht, p, hp, hs⟩
    apply List.mem_filter.2
    refine ⟨hm, ?_⟩
    rw [ht]
    exact (rsearch_joinAlt ALLOWED_TITLE_PATTERNS (strLower t).toList).2 ⟨p, hp, hs⟩

/-! ## Claim C8: the posted-age label -/

/-- C8: the age label is Unknown exactly on a missing timestamp; otherwise,
with h the floor of the elapsed seconds over 3600, the label is h hours ago
when h is below 24 and h over 24 (floor) days ago otherwise; in particular
two hours ago labels as 2 hours ago and fifty hours ago as 2 days ago. -/
theorem C8_posted_age_label (now : Int) :
    compute_posted_ago now none = "Unknown" ∧
    (∀ d : Int, compute_posted_ago now (some d) =
      (if (now - d).fdiv 3600 < 24 then toString ((now - d).fdiv 3600) ++ " hours ago"
       else toString (((now - d).fdiv 3600).fdiv 24) ++ " days ago")) ∧
    compute_posted_ago now (some (now - 2 * 3600)) = "2 hours ago" ∧
    compute_posted_ago now (some (now - 50 * 3600)) = "2 days ago" := by
  refine ⟨rfl, fun d => rfl, ?_, ?_⟩
  · simp only [compute_posted_ago]
    rw [show now - (now - 2 * 3600) = (7200 : Int) by ring]
    decide
  · simp only [compute_posted_ago]
    rw [show now - (now - 50 * 3600) = (180000 : Int) by ring]
    decide

/-! ## Claim C9: which field feeds the canonical timestamp -/

/-- C9 counterexample: the claim says each posting takes its timestamp from
the first populated field among date_posted, posted_date, posted_at.  The
code instead picks the first of those COLUMNS present in the gathered table
and uses it for every row.  On a table whose columns include date_posted,
a row with an empty date_posted cell but a populated, parseable posted_date
cell gets no timestamp from the code, while the claim assigns it the parsed
posted_date value. -/
theorem C9_first_populated_counterexample :
    ¬ (∀ (cols : List String) (parseD : String → Option Int) (rows : List Row),
        (normalizeDateStep cols parseD rows).map Row.posted_dt
          = rows.map (specPostedAt parseD)) := by
  intro h
  exact absurd (h cols9 parseD9 [row91, row92]) (by decide)

/-- C9 amended: the canonical timestamp is parsed from a single table-wide
column, the first of date_posted, posted_date, posted_at present among the
gathered columns; every row parses its cell of that one column (missing or
unparseable cells give no timestamp), later candidate fields are never
consulted even for rows whose chosen cell is empty, and if no candidate
column is present every timestamp is empty. -/
theorem C9_date_from_first_present_column (cols : List String)
    (parseD : String → Option Int) (rows : List Row) :
    (cols.contains "date_posted" = true →
      (normalizeDateStep cols parseD rows).map Row.posted_dt
        = rows.map (fun r => r.date_posted.bind parseD)) ∧
    (cols.contains "date_posted" = false → cols.contains "posted_date" = true →
      (normalizeDateStep cols parseD rows).map Row.posted_dt
        = rows.map (fun r => r.posted_date.bind parseD)) ∧
    (cols.contains "date_posted" = false → cols.contains "posted_date" = false →
      cols.contains "posted_at" = true →
      (normalizeDateStep cols parseD rows).map Row.posted_dt
        = rows.map (fun r => r.posted_at.bind parseD)) ∧
    (cols.contains "date_posted" = false → cols.contains "posted_date" = false →
      cols.contains "posted_at" = false →
      (normalizeDateStep cols parseD rows).map Row.posted_dt
        = rows.map (fun _ => none)) := by
  refine ⟨fun h1 => ?_, fun h1 h2 => ?_, fun h1 h2 h3 => ?_, fun h1 h2 h3 => ?_⟩
  · unfold normalizeDateStep DATE_COLS
    simp only [List.find?, h1]
    simp [List.map_map, getDateField]
  · unfold normalizeDateStep DATE_COLS
    simp only [List.find?, h1, h2]
    simp [List.map_map, getDateField]
  · unfold normalizeDateStep DATE_COLS
    simp only [List.find?, h1, h2, h3]
    simp [List.map_map, getDateField]
  · unfold normalizeDateStep DATE_COLS
    simp only [List.find?, h1, h2, h3]
    simp [List.map_map, Function.comp_def, List.map_const']

/-- C9 witness for the amended theorem, at the concrete counterexample
table: the code takes every timestamp from the date_posted column. -/
theorem C9_date_from_first_present_column_witness :
    (normalizeDateStep cols9 parseD9 [row91, row92]).map Row.posted_dt
      = [row91, row92].map (fun r => r.date_posted.bind parseD9) :=
  (C9_date_from_first_present_column cols9 parseD9 [row91, row92]).1 (by decide)

/-! ## Claim C1: fault isolation of the fetch phase -/

/-- C1: against every backend oracle the loop attempts all fifteen (term,
site) pairs (one scrape log record each; a failing pair contributes only its
error record, never an abort), and when every pair raises, gather_jobs
returns without raising, with the empty frame and a non-empty list of
recorded failures, and the run still dispatches the no-matching-jobs report
exactly once. -/
theorem C1_fetch_fault_isolation (fetch : String → String → FetchResult)
    (parseD : String → Option Int) (now : Int) (reg : Regex) :
    (gather_jobs fetch parseD now (some reg)).1.countP isInfoEv = 15 ∧
    ((∀ t ∈ SEARCH_TERMS, ∀ s ∈ SITES, isRaised (fetch t s) = true) →
      raisedOf (gather_jobs fetch parseD now (some reg)) = false ∧
      frameOf (gather_jobs fetch parseD now (some reg)) = ⟨[], []⟩ ∧
      0 < (gather_jobs fetch parseD now (some reg)).1.countP isErrorEv ∧
      (mainRun fetch parseD now (some reg) (fun _ => true)).outcome
          = .emailSent NO_JOBS_HTML 0 ∧
      (mainRun fetch parseD now (some reg) (fun _ => true)).dispatches
          = [(NO_JOBS_HTML, 0)]) := by
  refine ⟨gather_log_infos fetch parseD now (some reg), fun h => ?_⟩
  have hp : ∀ p ∈ pairList, isRaised (fetch p.1 p.2) = true := by
    intro p hmem
    simp only [pairList, List.mem_flatMap, List.mem_map] at hmem
    rcases hmem with ⟨t, ht, s, hs, rfl⟩
    exact h t ht s hs
  have hnil := gatherParts_nil fetch hp
  have hE : (gatherParts fetch).isEmpty = true := by rw [hnil]; rfl
  have hg : gather_jobs fetch parseD now (some reg)
      = (gatherLogs fetch ++ [.error "All sources failed. Returning empty DataFrame."],
         .ok ⟨[], []⟩) := by
    simp [gather_jobs, hE]
  refine ⟨by rw [hg]; rfl, by rw [hg]; rfl, ?_, ?_, ?_⟩
  · rw [hg]
    simp [List.countP_append, List.countP_cons, isErrorEv]
  · simp [mainRun, hg, build_html_email]
  · simp [mainRun, hg, build_html_email]

/-- C1 witness: the all-raising backend satisfies the hypothesis, and the
conclusions hold there. -/
theorem C1_fetch_fault_isolation_witness :
    raisedOf (gather_jobs frAll parse0 0 (some titleRegex)) = false ∧
    frameOf (gather_jobs frAll parse0 0 (some titleRegex)) = ⟨[], []⟩ ∧
    0 < (gather_jobs frAll parse0 0 (some titleRegex)).1.countP isErrorEv ∧
    (mainRun frAll parse0 0 (some titleRegex) (fun _ => true)).outcome
        = .emailSent NO_JOBS_HTML 0 ∧
    (mainRun frAll parse0 0 (some titleRegex) (fun _ => true)).dispatches
        = [(NO_JOBS_HTML, 0)] :=
  (C1_fetch_fault_isolation frAll parse0 0 titleRegex).2 (by decide)

/-! ## Claim C2: how many dispatch attempts one run makes -/

/-- C3 counterexample: with a malformed configured pattern (the external re
compiler rejects the joined pattern string, modelled by the none compiled
regex) and a backend where one pair succeeds, the run performs all fifteen
fetch attempts BEFORE the filter stage raises, so the failure is not at
construction time before any fetch; and main swallows the error into the
minimal-report dispatch instead of failing fatally.  Moreover, when every
fetch fails, the malformed pattern raises nothing at all (the early return
precedes the filter). -/
theorem C3_failfast_counterexample :
    (gather_jobs fetchOne parse0 0 none).1.countP isInfoEv = 15 ∧
    raisedOf (gather_jobs fetchOne parse0 0 none) = true ∧
    (mainRun fetchOne parse0 0 none (fun _ => true)).outcome = .errorEmailSent ∧
    raisedOf (gather_jobs frAll parse0 0 none) = false := by
  refine ⟨by decide, by decide, by decide, by decide⟩

/-- C3 amended: a malformed allow-list pattern never surfaces before the
fetch phase: all fifteen pairs are attempted first; if no pair produced
rows, the early return means the pattern is never compiled and nothing is
raised; otherwise the re.error escapes gather_jobs at the filter stage and
the top-level handler swallows it, dispatching the minimal run-failed report
once instead of treating it as fatal. -/
theorem C3_malformed_pattern_behavior (fetch : String → String → FetchResult)
    (parseD : String → Option Int) (now : Int) :
    (gather_jobs fetch parseD now none).1.countP isInfoEv = 15 ∧
    ((gatherParts fetch).isEmpty = true →
      raisedOf (gather_jobs fetch parseD now none) = false) ∧
    ((gatherParts fetch).isEmpty = false →
      raisedOf (gather_jobs fetch parseD now none) = true ∧
      (mainRun fetch parseD now none (fun _ => true)).outcome = .errorEmailSent ∧
      (mainRun fetch parseD now none (fun _ => true)).dispatches = [(ERROR_HTML, 0)]) := by
  refine ⟨gather_log_infos fetch parseD now none, fun hE => ?_, fun hE => ?_⟩
  · simp [gather_jobs, hE, raisedOf]
  · have hg : gather_jobs fetch parseD now none = (gatherLogs fetch, .error .reError) := by
      simp [gather_jobs, hE]
    refine ⟨by rw [hg]; rfl, ?_, ?_⟩
    · simp [mainRun, hg]
    · simp [mainRun, hg]

/-- C3 witness for the amended theorem, at the backend with one successful
pair. -/
theorem C3_malformed_pattern_behavior_witness :
    raisedOf (gather_jobs fetchOne parse0 0 none) = true ∧
    (mainRun fetchOne parse0 0 none (fun _ => true)).outcome = .errorEmailSent ∧
    (mainRun fetchOne parse0 0 none (fun _ => true)).dispatches = [(ERROR_HTML, 0)] :=
  (C3_malformed_pattern_behavior fetchOne parse0 0).2.2 (by decide)

/-! ## Claim C10: missing titles are dropped, never raised on -/

/-- C10: the title-filter predicate sends a missing title cell to false
under any compiled regex (na equal False: the row is silently dropped, no
error), and consequently every row of the final gathered frame, hence every
posting rendered into the report, carries a present title. -/
theorem C10_missing_title_dropped (fetch : String → String → FetchResult)
    (parseD : String → Option Int) (now : Int) (reg : Regex) (r : Row) :
    titleAccept reg none = false ∧
    (r ∈ (frameOf (gather_jobs fetch parseD now (some reg))).rows → r.title ≠ none) := by
  refine ⟨rfl, fun h => ?_⟩
  by_cases hE : (gatherParts fetch).isEmpty
  · rw [show frameOf (gather_jobs fetch parseD now (some reg)) = ⟨[], []⟩ from by
      simp [gather_jobs, hE, frameOf]] at h
    exact absurd h (List.not_mem_nil r)
  · rw [gather_ok_rows fetch parseD now reg (by simp_all)] at h
    exact mem_finishRows_title _ _ _ _ _ _ h

/-- Concrete evaluation of the pipeline for the C10 witness: fetchOne yields
exactly one final row. -/
theorem gather_fetchOne_rows :
    (frameOf (gather_jobs fetchOne parse0 0 (some titleRegex))).rows = [rowPFinal] := by
  rfl

/-- C10 witness: the surviving row of the concrete run has a present title. -/
theorem C10_missing_title_dropped_witness : rowPFinal.title ≠ none :=
  (C10_missing_title_dropped fetchOne parse0 0 titleRegex rowPFinal).2
    (by rw [gather_fetchOne_rows]; exact List.mem_singleton_self rowPFinal)

end JobAlert
